import Mathlib

/-!
Verification of the thermal-controller-iot monitoring program.

Shallow embedding conventions:
* Python floats are modelled as rationals.
* Timestamps (ISO strings compared lexicographically in SQLite, which agrees
  with chronological order for a fixed format) are modelled as integers.
* A value access that may raise an exception is modelled as an Option:
  none is the raising outcome.
* The SQLite table of measurements is modelled as a list of rows kept in
  insertion order together with the next autoincrement id; ORDER BY is
  modelled as a stable insertion sort on the timestamp key.
-/

/-- Rounding to two decimal places, as the Python round(x, 2). -/
def roundTo2 (x : ℚ) : ℚ := ((round (x * 100) : ℤ) : ℚ) / 100

/-- SensorReading dataclass: timestamp, temperature, humidity, pressure,
optional altitude. -/
structure SensorReading where
  timestamp : Int
  temperature : ℚ
  humidity : ℚ
  pressure : ℚ
  altitude : Option ℚ := none
  deriving DecidableEq

/-- The dictionary produced by SensorReading.to_dict for JSON. -/
structure ReadingDict where
  timestamp : Int
  temperature : ℚ
  humidity : ℚ
  pressure : ℚ
  altitude : Option ℚ
  deriving DecidableEq

/-- SensorReading.to_dict: rounds each field to 2 decimals; the altitude
entry is produced by the Python truthiness test `round(self.altitude, 2)
if self.altitude else None`, so both a missing altitude and an altitude
equal to 0.0 yield None. -/
def SensorReading.to_dict (r : SensorReading) : ReadingDict where
  timestamp := r.timestamp
  temperature := roundTo2 r.temperature
  humidity := roundTo2 r.humidity
  pressure := roundTo2 r.pressure
  altitude :=
    match r.altitude with
    | some a => if a = 0 then none else some (roundTo2 a)
    | none => none

/-- The BME280 device handle. Each property access on the CircuitPython
object can raise; a none field models a raising access. -/
structure HardwareDevice where
  temperature : Option ℚ
  humidity : Option ℚ
  pressure : Option ℚ
  altitude : Option ℚ
  deriving DecidableEq

/-- ThermalSensor state after _init_sensor: the sensor field is none when
initialization failed (emulation mode) and some device otherwise, plus the
calibration offsets taken from the configuration. -/
structure ThermalSensor where
  sensor : Option HardwareDevice
  temp_offset : ℚ
  hum_offset : ℚ
  pres_offset : ℚ
  deriving DecidableEq

/-- The time-of-day temperature offset of ThermalSensor._read_mock:
-3 for hours 2..6 (night), +3 for hours 12..16 (day), 0 otherwise. -/
def temp_variation (hour : Nat) : ℚ :=
  if 2 ≤ hour ∧ hour ≤ 6 then -3
  else if 12 ≤ hour ∧ hour ≤ 16 then 3
  else 0

/-- ThermalSensor._read_mock: synthesizes a reading from the current hour
and the random.uniform draws jt (±0.5), jh (±5), jp (±10), ja (±10), which
are passed here as explicit parameters. It always returns a reading. -/
def ThermalSensor.read_mock (now : Int) (hour : Nat) (jt jh jp ja : ℚ) :
    SensorReading where
  timestamp := now
  temperature := roundTo2 (22 + temp_variation hour + jt)
  humidity := roundTo2 (45 + jh)
  pressure := roundTo2 (1013.25 + jp)
  altitude := some (100 + ja)

/-- ThermalSensor.read: with no hardware handle it falls back to the mock
and always succeeds; with a handle it reads the four device properties,
adds the calibration offsets to temperature, humidity and pressure, and
returns none if any property access raises. -/
def ThermalSensor.read (s : ThermalSensor) (now : Int) (hour : Nat)
    (jt jh jp ja : ℚ) : Option SensorReading :=
  match s.sensor with
  | none => some (ThermalSensor.read_mock now hour jt jh jp ja)
  | some dev =>
    match dev.temperature, dev.humidity, dev.pressure, dev.altitude with
    | some t, some h, some p, some a =>
      some { timestamp := now
             temperature := t + s.temp_offset
             humidity := h + s.hum_offset
             pressure := p + s.pres_offset
             altitude := some a }
    | _, _, _, _ => none

/-- ThermalSensor.is_connected: false when the handle is none, otherwise
true exactly when a probe read of the temperature property succeeds. -/
def ThermalSensor.is_connected (s : ThermalSensor) : Bool :=
  match s.sensor with
  | none => false
  | some dev => dev.temperature.isSome

/-- One row of the measurements table. -/
structure MeasRow where
  id : Nat
  timestamp : Int
  temperature : ℚ
  humidity : ℚ
  pressure : ℚ
  deriving DecidableEq

/-- The SQLite measurements table: rows in insertion order plus the next
autoincrement id. -/
structure SimpleDatabase where
  rows : List MeasRow
  nextId : Nat
  deriving DecidableEq

/-- Ascending timestamp order on rows (ORDER BY timestamp ASC). -/
def tsAsc (a b : MeasRow) : Prop := a.timestamp ≤ b.timestamp

/-- Descending timestamp order on rows (ORDER BY timestamp DESC). -/
def tsDesc (a b : MeasRow) : Prop := b.timestamp ≤ a.timestamp

instance : DecidableRel tsAsc :=
  fun a b => inferInstanceAs (Decidable (a.timestamp ≤ b.timestamp))

instance : DecidableRel tsDesc :=
  fun a b => inferInstanceAs (Decidable (b.timestamp ≤ a.timestamp))

instance : IsTotal MeasRow tsAsc := ⟨fun a b => le_total a.timestamp b.timestamp⟩

instance : IsTrans MeasRow tsAsc := ⟨fun _ _ _ h h2 => le_trans h h2⟩

instance : IsTotal MeasRow tsDesc := ⟨fun a b => le_total b.timestamp a.timestamp⟩

instance : IsTrans MeasRow tsDesc := ⟨fun _ _ _ h h2 => le_trans h2 h⟩

/-- SimpleDatabase.save_reading: INSERT of (now, temp, humidity, pressure)
with a fresh ascending id. -/
def SimpleDatabase.save_reading (db : SimpleDatabase) (now : Int)
    (temp humidity pressure : ℚ) : SimpleDatabase where
  rows := db.rows ++
    [{ id := db.nextId, timestamp := now, temperature := temp,
       humidity := humidity, pressure := pressure }]
  nextId := db.nextId + 1

/-- SimpleDatabase.get_recent: SELECT * ORDER BY timestamp DESC LIMIT limit. -/
def SimpleDatabase.get_recent (db : SimpleDatabase) (limit : Nat) :
    List MeasRow :=
  (List.insertionSort tsDesc db.rows).take limit

/-- SimpleDatabase.get_last_hour: SELECT * WHERE timestamp > now - 3600
ORDER BY timestamp ASC. The comparison in the source is strict. -/
def SimpleDatabase.get_last_hour (db : SimpleDatabase) (now : Int) :
    List MeasRow :=
  List.insertionSort tsAsc
    (db.rows.filter (fun r => decide (now - 3600 < r.timestamp)))

/-- Modelled from the words of the spec, for comparison only: window(since)
returns all measurements with timestamp greater than or equal to since,
earliest-first. -/
def spec_window (db : SimpleDatabase) (since : Int) : List MeasRow :=
  List.insertionSort tsAsc
    (db.rows.filter (fun r => decide (since ≤ r.timestamp)))

/-- The JSON answered by /api/current. -/
structure CurrentResponse where
  success : Bool
  sensor_connected : Bool
  stats : Option SensorReading
  deriving DecidableEq

/-- The /api/current handler: read the sensor; if the reading is truthy
(i.e. not None) save it to the store; then answer with the reading and the
connection flag. Returns the updated store together with the response. -/
def api_current (s : ThermalSensor) (db : SimpleDatabase) (now : Int)
    (hour : Nat) (jt jh jp ja : ℚ) : SimpleDatabase × CurrentResponse :=
  match s.read now hour jt jh jp ja with
  | some reading =>
    (db.save_reading now reading.temperature reading.humidity reading.pressure,
     { success := true, sensor_connected := s.is_connected,
       stats := some reading })
  | none =>
    (db, { success := true, sensor_connected := s.is_connected, stats := none })

/-- The /api/history handler: for hours = 1 answer get_last_hour, otherwise
answer get_recent with limit = hours * 60 integer-divided by the configured
read interval. -/
def api_history (db : SimpleDatabase) (read_interval : Nat) (now : Int)
    (hours : Nat) : List MeasRow :=
  if hours = 1 then db.get_last_hour now
  else db.get_recent (hours * 60 / read_interval)

/-- The JSON answered by /api/health. -/
structure HealthResponse where
  status : String
  sensor_connected : Bool
  timestamp : Int
  deriving DecidableEq

/-- The /api/health handler. -/
def api_health (s : ThermalSensor) (now : Int) : HealthResponse where
  status := "ok"
  sensor_connected := s.is_connected
  timestamp := now

/-- The per-cycle environment of the collection loop: wall clock and the
random draws a mock read would use. -/
structure CycleEnv where
  now : Int
  hour : Nat
  jt : ℚ
  jh : ℚ
  jp : ℚ
  ja : ℚ
  deriving DecidableEq

/-- One iteration of SensorMonitor._data_collection_thread while running:
read the sensor and, if the reading is truthy, emit one debug log line;
then sleep. The store is returned unchanged because the loop body never
calls save_reading. The second component counts debug log lines. -/
def data_collection_cycle (s : ThermalSensor) (db : SimpleDatabase)
    (e : CycleEnv) : SimpleDatabase × Nat :=
  match s.read e.now e.hour e.jt e.jh e.jp e.ja with
  | some _ => (db, 1)
  | none => (db, 0)

/-- N iterations of the collection loop, threading the store and summing
the debug log count. -/
def data_collection_thread (s : ThermalSensor) (envs : List CycleEnv)
    (db : SimpleDatabase) : SimpleDatabase × Nat :=
  envs.foldl
    (fun acc e =>
      ((data_collection_cycle s acc.1 e).1,
       acc.2 + (data_collection_cycle s acc.1 e).2))
    (db, 0)

/-- The monitor state touched by start and stop: the running flag and the
number of collection threads spawned so far. -/
structure MonitorState where
  running : Bool
  threads : Nat
  deriving DecidableEq

/-- SensorMonitor.start: sets running and spawns a collection thread. There
is no guard on the current state in the source. -/
def SensorMonitor.start (m : MonitorState) : MonitorState where
  running := true
  threads := m.threads + 1

/-- SensorMonitor.stop: clears the running flag. -/
def SensorMonitor.stop (m : MonitorState) : MonitorState where
  running := false
  threads := m.threads

/-- The device section of the configuration. -/
structure DeviceConfig where
  name : String
  location : String
  deriving DecidableEq

/-- The sensor section of the configuration. -/
structure SensorConfig where
  i2c_bus : Nat
  i2c_address : Nat
  sea_level_pressure : ℚ
  read_interval : Nat
  temperature_offset : ℚ
  humidity_offset : ℚ
  pressure_offset : ℚ
  deriving DecidableEq

/-- The logging section of the configuration. -/
structure LoggingConfig where
  level : String
  file : String
  max_size_mb : Nat
  backup_count : Nat
  deriving DecidableEq

/-- The configuration structure loaded from config.yaml. -/
structure Config where
  device : DeviceConfig
  sensor : SensorConfig
  logging : LoggingConfig
  deriving DecidableEq

/-- SensorMonitor._default_config, field for field from the source. -/
def SensorMonitor.default_config : Config where
  device := { name := "raspberry-pi-climate", location := "кабинет" }
  sensor :=
    { i2c_bus := 1
      i2c_address := 0x76
      sea_level_pressure := 1013.25
      read_interval := 10
      temperature_offset := 0
      humidity_offset := 0
      pressure_offset := 0 }
  logging :=
    { level := "INFO", file := "./sensor_monitor.log",
      max_size_mb := 10, backup_count := 5 }

/-- SensorMonitor.load_config: the outcome of opening and parsing the YAML
file is passed in as an Except; any raised error falls back to the built-in
default configuration. -/
def SensorMonitor.load_config (loaded : Except String Config) : Config :=
  match loaded with
  | .ok c => c
  | .error _ => SensorMonitor.default_config

/-- A sensor in emulation mode (initialization failed, handle is none). -/
def mockSensor : ThermalSensor :=
  { sensor := none, temp_offset := 0, hum_offset := 0, pres_offset := 0 }

/-- A device on which every property access raises. -/
def deadDevice : HardwareDevice :=
  { temperature := none, humidity := none, pressure := none, altitude := none }

/-- A hardware sensor whose every device access raises. -/
def deadSensor : ThermalSensor :=
  { sensor := some deadDevice, temp_offset := 0, hum_offset := 0,
    pres_offset := 0 }

/-- A healthy device with concrete raw values. -/
def goodDevice : HardwareDevice :=
  { temperature := some 21, humidity := some 40, pressure := some 1000,
    altitude := some 150 }

/-- A hardware sensor over goodDevice with nonzero offsets. -/
def goodSensor : ThermalSensor :=
  { sensor := some goodDevice, temp_offset := 1, hum_offset := 2,
    pres_offset := 3 }

/-- A freshly initialized empty store. -/
def emptyDb : SimpleDatabase := { rows := [], nextId := 1 }

/-- Distance between a rational and its 2-decimal rounding. -/
theorem roundTo2_close (x : ℚ) : |roundTo2 x - x| ≤ 1 / 200 := by
  have h : |x * 100 - ((round (x * 100) : ℤ) : ℚ)| ≤ 1 / 2 :=
    abs_sub_round (x * 100)
  have heq : roundTo2 x - x = -((x * 100 - ((round (x * 100) : ℤ) : ℚ)) / 100) := by
    unfold roundTo2; ring
  rw [heq, abs_neg, abs_div]
  have h100 : |(100 : ℚ)| = 100 := by norm_num
  rw [h100]
  linarith

/-- C3 counterexample: in emulation mode (no hardware handle, the mock
variant) is_connected answers false, not true as the claim states. -/
theorem C3_counterexample : mockSensor.is_connected ≠ true := by decide

/-- C3 (amended): is_connected is false whenever the hardware handle is
absent (emulation mode); with a handle present it is true exactly when the
probe read of the temperature property succeeds. -/
theorem C3_is_connected (s : ThermalSensor) :
    (s.sensor = none → s.is_connected = false) ∧
    (∀ dev, s.sensor = some dev →
      (s.is_connected = true ↔ dev.temperature.isSome = true)) := by
  constructor
  · intro h
    simp [ThermalSensor.is_connected, h]
  · intro dev h
    simp [ThermalSensor.is_connected, h]

/-- C3 witness: the amended statement at the mock sensor and at a live
hardware sensor. -/
theorem C3_is_connected_witness :
    mockSensor.is_connected = false ∧
    (goodSensor.is_connected = true ↔ goodDevice.temperature.isSome = true) :=
  ⟨(C3_is_connected mockSensor).1 rfl,
   (C3_is_connected goodSensor).2 goodDevice rfl⟩

/-- C4: the history endpoint with span exactly 1 answers the last-hour
window query, and with any span greater than 1 answers get_recent with
limit = span * 60 integer-divided by the configured read interval. -/
theorem C4_history_refinement (db : SimpleDatabase) (ri : Nat) (now : Int)
    (hours : Nat) (h : 1 < hours) :
    api_history db ri now 1 = db.get_last_hour now ∧
    api_history db ri now hours = db.get_recent (hours * 60 / ri) := by
  constructor
  · simp [api_history]
  · have hne : hours ≠ 1 := by omega
    simp [api_history, hne]

/-- C4 witness: the refinement at span 2 with the default interval of 10. -/
theorem C4_history_refinement_witness :
    api_history emptyDb 10 0 1 = emptyDb.get_last_hour 0 ∧
    api_history emptyDb 10 0 2 = emptyDb.get_recent (2 * 60 / 10) :=
  C4_history_refinement emptyDb 10 0 2 (by decide)

/-- C5: when the on-demand current-reading handler obtains a reading, that
reading is saved to the store (and the response carries it); when the read
fails the store is returned unchanged. -/
theorem C5_current_store_effect (s : ThermalSensor) (db : SimpleDatabase)
    (now : Int) (hour : Nat) (jt jh jp ja : ℚ) :
    (∀ r, s.read now hour jt jh jp ja = some r →
      (api_current s db now hour jt jh jp ja).1 =
        db.save_reading now r.temperature r.humidity r.pressure) ∧
    (s.read now hour jt jh jp ja = none →
      (api_current s db now hour jt jh jp ja).1 = db) := by
  constructor
  · intro r hr
    simp [api_current, hr]
  · intro hr
    simp [api_current, hr]

/-- C5 witness: a successful mock read is appended; a failing hardware
read leaves the store unchanged. -/
theorem C5_current_store_effect_witness :
    (api_current mockSensor emptyDb 0 0 0 0 0 0).1 =
      emptyDb.save_reading 0
        (ThermalSensor.read_mock 0 0 0 0 0 0).temperature
        (ThermalSensor.read_mock 0 0 0 0 0 0).humidity
        (ThermalSensor.read_mock 0 0 0 0 0 0).pressure ∧
    (api_current deadSensor emptyDb 0 0 0 0 0 0).1 = emptyDb :=
  ⟨(C5_current_store_effect mockSensor emptyDb 0 0 0 0 0 0).1
      (ThermalSensor.read_mock 0 0 0 0 0 0) rfl,
   (C5_current_store_effect deadSensor emptyDb 0 0 0 0 0 0).2 rfl⟩

/-- C8 counterexample: calling start twice from the Stopped state does not
leave the system in the same state as calling it once; two collection
threads have been spawned instead of one. -/
theorem C8_counterexample :
    SensorMonitor.start (SensorMonitor.start { running := false, threads := 0 }) ≠
      SensorMonitor.start { running := false, threads := 0 } := by
  decide

/-- C8 (amended): start is not idempotent. Every call sets running and
spawns one more background collection thread, so two calls from Stopped
leave two threads where one call leaves one. -/
theorem C8_start_not_idempotent (m : MonitorState) :
    SensorMonitor.start m = { running := true, threads := m.threads + 1 } ∧
    (SensorMonitor.start (SensorMonitor.start m)).threads = m.threads + 2 :=
  ⟨rfl, rfl⟩

/-- C9: when opening or parsing the configuration file raises, load_config
answers the built-in default configuration instead of aborting, and the
health endpoint still answers with status ok. -/
theorem C9_config_fallback (e : String) (s : ThermalSensor) (now : Int) :
    SensorMonitor.load_config (.error e) = SensorMonitor.default_config ∧
    (api_health s now).status = "ok" ∧
    (api_health s now).timestamp = now :=
  ⟨rfl, rfl, rfl⟩

/-- C10: serializing a reading whose altitude is 0.0 reports altitude as
None, exactly as when the altitude is missing, because the presence test is
Python truthiness; any nonzero altitude is reported rounded to 2 decimals. -/
theorem C10_to_dict_altitude (r : SensorReading) (a : ℚ) (ha : a ≠ 0) :
    ({ r with altitude := some 0 } : SensorReading).to_dict.altitude = none ∧
    ({ r with altitude := none } : SensorReading).to_dict.altitude = none ∧
    ({ r with altitude := some a } : SensorReading).to_dict.altitude =
      some (roundTo2 a) := by
  refine ⟨by simp [SensorReading.to_dict], by simp [SensorReading.to_dict], ?_⟩
  simp [SensorReading.to_dict, ha]

/-- C10 witness: the altitude behavior at a concrete reading with
altitude 0, altitude missing, and altitude 150.5. -/
theorem C10_to_dict_altitude_witness :
    ({ timestamp := 0, temperature := 22, humidity := 45, pressure := 1013,
       altitude := some 0 } : SensorReading).to_dict.altitude = none ∧
    ({ timestamp := 0, temperature := 22, humidity := 45, pressure := 1013,
       altitude := none } : SensorReading).to_dict.altitude = none ∧
    ({ timestamp := 0, temperature := 22, humidity := 45, pressure := 1013,
       altitude := some (301 / 2) } : SensorReading).to_dict.altitude =
      some (roundTo2 (301 / 2)) :=
  C10_to_dict_altitude
    { timestamp := 0, temperature := 22, humidity := 45, pressure := 1013,
      altitude := none }
    (301 / 2) (by norm_num)

/-- A cycle environment at time 0, daytime hour, all jitter draws zero. -/
def env0 : CycleEnv := { now := 0, hour := 12, jt := 0, jh := 0, jp := 0, ja := 0 }

/-- A cycle environment one interval later. -/
def env1 : CycleEnv := { now := 10, hour := 12, jt := 0, jh := 0, jp := 0, ja := 0 }

/-- The loop body never changes the store, whatever the initial
accumulator. -/
theorem data_collection_thread_fst (s : ThermalSensor) (envs : List CycleEnv) :
    ∀ (db : SimpleDatabase) (n : Nat),
      (envs.foldl
        (fun acc e =>
          ((data_collection_cycle s acc.1 e).1,
           acc.2 + (data_collection_cycle s acc.1 e).2))
        (db, n)).1 = db := by
  induction envs with
  | nil => intro db n; rfl
  | cons e tl ih =>
    intro db n
    rw [List.foldl_cons]
    have hc : (data_collection_cycle s db e).1 = db := by
      unfold data_collection_cycle
      cases s.read e.now e.hour e.jt e.jh e.jp e.ja <;> rfl
    show (tl.foldl _
      ((data_collection_cycle s db e).1,
       n + (data_collection_cycle s db e).2)).1 = db
    rw [hc]
    exact ih db _

/-- C1: the collection loop never appends. In general the store after any
number of cycles equals the initial store, and concretely two cycles in
which every sensor read succeeds (mock mode) emit two debug log lines yet
append zero rows, while the claim requires at least two appends. -/
theorem C1_loop_never_appends :
    (∀ (s : ThermalSensor) (envs : List CycleEnv) (db : SimpleDatabase),
      (data_collection_thread s envs db).1 = db) ∧
    data_collection_thread mockSensor [env0, env1] emptyDb = (emptyDb, 2) ∧
    (data_collection_thread mockSensor [env0, env1] emptyDb).1.rows.length = 0 := by
  refine ⟨fun s envs db => data_collection_thread_fst s envs db 0, rfl, rfl⟩

/-- A stored row whose timestamp is exactly the window boundary. -/
def boundaryRow : MeasRow :=
  { id := 1, timestamp := 0, temperature := 22, humidity := 45, pressure := 1013 }

/-- A store holding only the boundary row. -/
def boundaryDb : SimpleDatabase := { rows := [boundaryRow], nextId := 2 }

/-- C2 counterexample: with now = 3600, a row stored at timestamp exactly
now - 3600 is excluded by get_last_hour (the source compares strictly),
while the claimed window with timestamp greater than or equal to since
contains it. -/
theorem C2_counterexample :
    boundaryDb.get_last_hour 3600 ≠ spec_window boundaryDb (3600 - 3600) := by
  decide

/-- C2 (amended): get_last_hour returns exactly the stored rows whose
timestamp is strictly greater than now - 3600, ordered earliest-first, and
get_recent returns at most limit rows ordered most-recent-first. -/
theorem C2_window_recent (db : SimpleDatabase) (now : Int) (limit : Nat) :
    (db.get_last_hour now).Perm
      (db.rows.filter (fun r => decide (now - 3600 < r.timestamp))) ∧
    List.Sorted tsAsc (db.get_last_hour now) ∧
    (db.get_recent limit).length ≤ limit ∧
    List.Sorted tsDesc (db.get_recent limit) := by
  refine ⟨List.perm_insertionSort _ _, List.sorted_insertionSort _ _, ?_, ?_⟩
  · rw [SimpleDatabase.get_recent, List.length_take]
    exact min_le_left _ _
  · exact List.Pairwise.sublist (List.take_sublist _ _)
      (List.sorted_insertionSort tsDesc db.rows)

/-- The mock temperature tier offset always lies between -3 and 3. -/
theorem temp_variation_bounds (hour : Nat) :
    -3 ≤ temp_variation hour ∧ temp_variation hour ≤ 3 := by
  unfold temp_variation
  split
  · norm_num
  · split <;> norm_num

/-- C6: the mock read never fails and its temperature stays within 4
degrees of the 22 degree base, with tier offsets -3 on hours 2..6, +3 on
hours 12..16 and 0 otherwise, under the ±0.5 jitter bound of the uniform
draw. -/
theorem C6_mock_read (s : ThermalSensor) (now : Int) (hour : Nat)
    (jt jh jp ja : ℚ) (hs : s.sensor = none) (hj : |jt| ≤ 1 / 2) :
    s.read now hour jt jh jp ja =
      some (ThermalSensor.read_mock now hour jt jh jp ja) ∧
    22 - 4 ≤ (ThermalSensor.read_mock now hour jt jh jp ja).temperature ∧
    (ThermalSensor.read_mock now hour jt jh jp ja).temperature ≤ 22 + 4 ∧
    (2 ≤ hour ∧ hour ≤ 6 → temp_variation hour = -3) ∧
    (¬(2 ≤ hour ∧ hour ≤ 6) → 12 ≤ hour ∧ hour ≤ 16 → temp_variation hour = 3) ∧
    (¬(2 ≤ hour ∧ hour ≤ 6) → ¬(12 ≤ hour ∧ hour ≤ 16) →
      temp_variation hour = 0) := by
  obtain ⟨hv1, hv2⟩ := temp_variation_bounds hour
  obtain ⟨hj1, hj2⟩ := abs_le.mp hj
  have hclose := abs_le.mp (roundTo2_close (22 + temp_variation hour + jt))
  refine ⟨by rw [ThermalSensor.read, hs], ?_, ?_, ?_, ?_, ?_⟩
  · show 22 - 4 ≤ roundTo2 (22 + temp_variation hour + jt)
    linarith [hclose.1]
  · show roundTo2 (22 + temp_variation hour + jt) ≤ 22 + 4
    linarith [hclose.2]
  · intro h
    rw [temp_variation, if_pos h]
  · intro h1 h2
    rw [temp_variation, if_neg h1, if_pos h2]
  · intro h1 h2
    rw [temp_variation, if_neg h1, if_neg h2]

/-- C6 witness: the mock read of the emulation-mode sensor at daytime hour
14 with jitter 1/4. -/
theorem C6_mock_read_witness :
    mockSensor.read 0 14 (1 / 4) 0 0 0 =
      some (ThermalSensor.read_mock 0 14 (1 / 4) 0 0 0) ∧
    22 - 4 ≤ (ThermalSensor.read_mock 0 14 (1 / 4) 0 0 0).temperature ∧
    (ThermalSensor.read_mock 0 14 (1 / 4) 0 0 0).temperature ≤ 22 + 4 ∧
    (2 ≤ 14 ∧ 14 ≤ 6 → temp_variation 14 = -3) ∧
    (¬(2 ≤ 14 ∧ 14 ≤ 6) → 12 ≤ 14 ∧ 14 ≤ 16 → temp_variation 14 = 3) ∧
    (¬(2 ≤ 14 ∧ 14 ≤ 6) → ¬(12 ≤ 14 ∧ 14 ≤ 16) → temp_variation 14 = 0) :=
  C6_mock_read mockSensor 0 14 (1 / 4) 0 0 0 rfl
    (by rw [abs_of_pos] <;> norm_num)

/-- C7: a successful hardware read returns the raw device values with the
configured offsets added independently to temperature, humidity and
pressure; if any device property access raises, read returns none instead
of propagating the exception. -/
theorem C7_hardware_read (s : ThermalSensor) (dev : HardwareDevice)
    (now : Int) (hour : Nat) (jt jh jp ja : ℚ) (hs : s.sensor = some dev) :
    (∀ t h p a, dev.temperature = some t → dev.humidity = some h →
      dev.pressure = some p → dev.altitude = some a →
      s.read now hour jt jh jp ja =
        some { timestamp := now
               temperature := t + s.temp_offset
               humidity := h + s.hum_offset
               pressure := p + s.pres_offset
               altitude := some a }) ∧
    ((dev.temperature = none ∨ dev.humidity = none ∨ dev.pressure = none ∨
        dev.altitude = none) →
      s.read now hour jt jh jp ja = none) := by
  obtain ⟨dt, dh, dp, da⟩ := dev
  constructor
  · intro t h p a ht hh hp ha2
    cases ht; cases hh; cases hp; cases ha2
    rw [ThermalSensor.read, hs]
  · intro hfail
    rcases dt with _ | t <;> rcases dh with _ | h <;>
      rcases dp with _ | p <;> rcases da with _ | a <;>
      simp_all [ThermalSensor.read]

/-- C7 witness: the additive offsets on a healthy device and the none
result on a device whose accesses raise. -/
theorem C7_hardware_read_witness :
    goodSensor.read 0 0 0 0 0 0 =
      some { timestamp := 0
             temperature := 21 + goodSensor.temp_offset
             humidity := 40 + goodSensor.hum_offset
             pressure := 1000 + goodSensor.pres_offset
             altitude := some 150 } ∧
    deadSensor.read 0 0 0 0 0 0 = none :=
  ⟨(C7_hardware_read goodSensor goodDevice 0 0 0 0 0 0 rfl).1
      21 40 1000 150 rfl rfl rfl rfl,
   (C7_hardware_read deadSensor deadDevice 0 0 0 0 0 0 rfl).2 (Or.inl rfl)⟩
